import Mathlib

/-!
Verification of the wallpaper-scene-renderer core: the triple-buffered
swapchain hand-off, the GlExtra capability negotiation and external
memory importing (src/qml_helper/glExtra.hpp), and user-property
resolution (src/src/WPUserProperties.hpp).
-/

set_option maxRecDepth 4000

namespace wallpaper

/-! ## Swapchain slot state machine

Modelled from the spec: the `TripleSwapchain` template referenced by
src/src/Swapchain/ExSwapchain.hpp is not part of the sources; its contract
is taken from the spec (§4.1): three preallocated slots, states Free /
Writing / Ready / Reading, `acquireWrite` takes a Free slot to Writing,
`commitWrite` takes it to Ready and reverts a previously Ready slot to
Free (latest wins), `acquireRead` takes the Ready slot to Reading,
`releaseRead` takes it back to Free.  A single producer has at most one
in-flight write and a single consumer at most one in-flight read (§5). -/

inductive SlotState
  | free
  | writing
  | ready
  | reading
deriving DecidableEq, Fintype

/-- The occupancy states of the three slots (indices 0..2). -/
structure ChainState where
  s0 : SlotState
  s1 : SlotState
  s2 : SlotState
deriving DecidableEq, Fintype

def ChainState.get (c : ChainState) : Fin 3 → SlotState
  | 0 => c.s0
  | 1 => c.s1
  | 2 => c.s2

def ChainState.set (c : ChainState) : Fin 3 → SlotState → ChainState
  | 0, st => { c with s0 := st }
  | 1, st => { c with s1 := st }
  | 2, st => { c with s2 := st }

/-- The set of slot indices currently in a given state. -/
def slotSet (c : ChainState) (st : SlotState) : Finset (Fin 3) :=
  Finset.univ.filter (fun i => c.get i = st)

/-- Modelled from the spec: `acquireWrite` returns a slot currently Free
(never the slot in Ready or Reading) and transitions it to Writing. -/
def acquireWrite (c : ChainState) : Option (ChainState × Fin 3) :=
  if c.s0 = SlotState.free then some ({ c with s0 := SlotState.writing }, 0)
  else if c.s1 = SlotState.free then some ({ c with s1 := SlotState.writing }, 1)
  else if c.s2 = SlotState.free then some ({ c with s2 := SlotState.writing }, 2)
  else none

/-- Modelled from the spec: a previously Ready slot reverts to Free when a
new write is committed (latest wins). -/
def clearReady (st : SlotState) : SlotState :=
  if st = SlotState.ready then SlotState.free else st

/-- Modelled from the spec: `commitWrite` transitions the Writing slot to
Ready; any other slot that was Ready reverts to Free. -/
def commitWrite (c : ChainState) (i : Fin 3) : Option ChainState :=
  if c.get i = SlotState.writing then
    some ((ChainState.mk (clearReady c.s0) (clearReady c.s1) (clearReady c.s2)).set i
      SlotState.ready)
  else none

/-- Modelled from the spec: `acquireRead` returns the Ready slot if one
exists, transitioning it to Reading; otherwise nothing. -/
def acquireRead (c : ChainState) : Option (ChainState × Fin 3) :=
  if c.s0 = SlotState.ready then some ({ c with s0 := SlotState.reading }, 0)
  else if c.s1 = SlotState.ready then some ({ c with s1 := SlotState.reading }, 1)
  else if c.s2 = SlotState.ready then some ({ c with s2 := SlotState.reading }, 2)
  else none

/-- Modelled from the spec: `releaseRead` transitions Reading back to Free. -/
def releaseRead (c : ChainState) (i : Fin 3) : Option ChainState :=
  if c.get i = SlotState.reading then some (c.set i SlotState.free) else none

/-- States reachable from the all-Free initial state under any interleaving
of the four operations, with the single-producer / single-consumer calling
protocol of §5: the producer calls `acquireWrite` only with no write in
flight, the consumer calls `acquireRead` only with no read in flight. -/
inductive Reach : ChainState → Prop
  | init : Reach ⟨SlotState.free, SlotState.free, SlotState.free⟩
  | aw {c c' : ChainState} {i : Fin 3} : Reach c → (slotSet c SlotState.writing).card = 0 →
      acquireWrite c = some (c', i) → Reach c'
  | cw {c c' : ChainState} {i : Fin 3} : Reach c → commitWrite c i = some c' → Reach c'
  | ar {c c' : ChainState} {i : Fin 3} : Reach c → (slotSet c SlotState.reading).card = 0 →
      acquireRead c = some (c', i) → Reach c'
  | rr {c c' : ChainState} {i : Fin 3} : Reach c → releaseRead c i = some c' → Reach c'

/-- The inductive invariant of the slot state machine. -/
def chainInv (c : ChainState) : Prop :=
  (slotSet c SlotState.writing).card ≤ 1 ∧
  (slotSet c SlotState.reading).card ≤ 1 ∧
  (slotSet c SlotState.ready).card ≤ 1 ∧
  (slotSet c SlotState.free).card + (slotSet c SlotState.writing).card +
    (slotSet c SlotState.reading).card + (slotSet c SlotState.ready).card = 3

instance (c : ChainState) : Decidable (chainInv c) := by
  unfold chainInv; infer_instance

lemma chainInv_init : chainInv ⟨SlotState.free, SlotState.free, SlotState.free⟩ := by decide

lemma chainInv_aw : ∀ c : ChainState,
    chainInv c → (slotSet c SlotState.writing).card = 0 →
    Option.all (fun p => decide (chainInv p.1)) (acquireWrite c) = true := by decide

lemma chainInv_cw : ∀ (c : ChainState) (i : Fin 3),
    chainInv c → Option.all (fun c' => decide (chainInv c')) (commitWrite c i) = true := by
  decide

lemma chainInv_ar : ∀ c : ChainState,
    chainInv c → (slotSet c SlotState.reading).card = 0 →
    Option.all (fun p => decide (chainInv p.1)) (acquireRead c) = true := by decide

lemma chainInv_rr : ∀ (c : ChainState) (i : Fin 3),
    chainInv c → Option.all (fun c' => decide (chainInv c')) (releaseRead c i) = true := by
  decide

lemma chainInv_of_reach {c : ChainState} (h : Reach c) : chainInv c := by
  induction h with
  | init => exact chainInv_init
  | aw hr hw hop ih =>
      have := chainInv_aw _ ih hw
      rw [hop] at this
      simpa using this
  | cw hr hop ih =>
      rename_i c c' i
      have := chainInv_cw c i ih
      rw [hop] at this
      simpa using this
  | ar hr hrd hop ih =>
      have := chainInv_ar _ ih hrd
      rw [hop] at this
      simpa using this
  | rr hr hop ih =>
      rename_i c c' i
      have := chainInv_rr c i ih
      rw [hop] at this
      simpa using this

lemma slotSet_disjoint (c : ChainState) {a b : SlotState} (hab : a ≠ b) :
    Disjoint (slotSet c a) (slotSet c b) := by
  rw [Finset.disjoint_left]
  intro i hia hib
  simp only [slotSet, Finset.mem_filter] at hia hib
  exact hab (hia.2 ▸ hib.2)

/-- **C1.** In every reachable state of the three-slot swapchain, under any
interleaving of acquireWrite / commitWrite / acquireRead / releaseRead, the
sets of slots in states Writing, Reading and Ready are pairwise disjoint,
each has size at most 1, the counts of Free, Writing, Reading and Ready
slots sum to 3, and whenever no write is in flight a Free slot exists for
the producer. -/
theorem swapchain_reachable_slot_invariant (c : ChainState) (h : Reach c) :
    (Disjoint (slotSet c SlotState.writing) (slotSet c SlotState.reading) ∧
      Disjoint (slotSet c SlotState.writing) (slotSet c SlotState.ready) ∧
      Disjoint (slotSet c SlotState.reading) (slotSet c SlotState.ready)) ∧
    (slotSet c SlotState.writing).card ≤ 1 ∧
    (slotSet c SlotState.reading).card ≤ 1 ∧
    (slotSet c SlotState.ready).card ≤ 1 ∧
    (slotSet c SlotState.free).card + (slotSet c SlotState.writing).card +
      (slotSet c SlotState.reading).card + (slotSet c SlotState.ready).card = 3 ∧
    ((slotSet c SlotState.writing).card = 0 → 1 ≤ (slotSet c SlotState.free).card) := by
  obtain ⟨h1, h2, h3, h4⟩ := chainInv_of_reach h
  refine ⟨⟨slotSet_disjoint c (by decide), slotSet_disjoint c (by decide),
    slotSet_disjoint c (by decide)⟩, h1, h2, h3, h4, ?_⟩
  intro hw
  omega

/-- Witness for C1: the invariant evaluated on a concrete reachable state,
reached by one `acquireWrite` followed by a `commitWrite`. -/
theorem swapchain_reachable_slot_invariant_witness :
    (Disjoint (slotSet ⟨SlotState.ready, SlotState.free, SlotState.free⟩ SlotState.writing)
        (slotSet ⟨SlotState.ready, SlotState.free, SlotState.free⟩ SlotState.reading) ∧
      Disjoint (slotSet ⟨SlotState.ready, SlotState.free, SlotState.free⟩ SlotState.writing)
        (slotSet ⟨SlotState.ready, SlotState.free, SlotState.free⟩ SlotState.ready) ∧
      Disjoint (slotSet ⟨SlotState.ready, SlotState.free, SlotState.free⟩ SlotState.reading)
        (slotSet ⟨SlotState.ready, SlotState.free, SlotState.free⟩ SlotState.ready)) ∧
    (slotSet ⟨SlotState.ready, SlotState.free, SlotState.free⟩ SlotState.writing).card ≤ 1 ∧
    (slotSet ⟨SlotState.ready, SlotState.free, SlotState.free⟩ SlotState.reading).card ≤ 1 ∧
    (slotSet ⟨SlotState.ready, SlotState.free, SlotState.free⟩ SlotState.ready).card ≤ 1 ∧
    (slotSet ⟨SlotState.ready, SlotState.free, SlotState.free⟩ SlotState.free).card +
      (slotSet ⟨SlotState.ready, SlotState.free, SlotState.free⟩ SlotState.writing).card +
      (slotSet ⟨SlotState.ready, SlotState.free, SlotState.free⟩ SlotState.reading).card +
      (slotSet ⟨SlotState.ready, SlotState.free, SlotState.free⟩ SlotState.ready).card = 3 ∧
    ((slotSet ⟨SlotState.ready, SlotState.free, SlotState.free⟩ SlotState.writing).card = 0 →
      1 ≤ (slotSet ⟨SlotState.ready, SlotState.free, SlotState.free⟩ SlotState.free).card) :=
  swapchain_reachable_slot_invariant _
    (Reach.cw (i := 0)
      (Reach.aw Reach.init (by decide) (by rfl))
      (by rfl))

/-! ## ExHandle (src/src/Swapchain/ExSwapchain.hpp) -/

/-- Tiling layouts, from src/src/Swapchain/ExSwapchain.hpp. -/
inductive TexTiling
  | OPTIMAL
  | LINEAR
deriving DecidableEq

/-- An exportable GPU memory block, from src/src/Swapchain/ExSwapchain.hpp:
an OS file descriptor (-1 when invalid), pixel dimensions, byte size, and
an id.  Pixel format is fixed RGBA8. -/
structure ExHandle where
  fd : Int := -1
  width : Int := 0
  height : Int := 0
  size : Nat := 0
  m_id : Int := 0
deriving DecidableEq

end wallpaper

/-! ## GlExtra (src/qml_helper/glExtra.hpp)

The GL driver and the Qt context machinery are modelled as an environment
record: each boolean records the outcome of one driver/Qt call the code
makes, each list/number a value the driver reports.  Contexts are modelled
by numeric identities; "no context current" is `none`.  A freshly created
shared context is distinct from every existing context (a fresh
`QOpenGLContext` pointer); it is modelled as `c + 1` where `c` is the
identity of the context current at entry, and its offscreen surface as
`c + 2`.  `makeCurrent` failure leaves the current context unchanged. -/

/-- GL_OPTIMAL_TILING_EXT. -/
def GL_OPTIMAL_TILING_EXT : Int := 0x9584

/-- GL_LINEAR_TILING_EXT. -/
def GL_LINEAR_TILING_EXT : Int := 0x9585

/-- The GlExtra member state (src/qml_helper/glExtra.hpp lines 27-35).
`m_shared_ctx_share` models `m_shared_ctx->shareContext()`, the context
the shared context was created sharing with. -/
structure GlState where
  inited : Bool := false
  m_tiling : wallpaper.TexTiling := wallpaper.TexTiling.OPTIMAL
  m_shared_ctx : Option Nat := none
  m_shared_ctx_share : Option Nat := none
  m_surface : Option Nat := none
  m_use_shared_ctx : Bool := false
  m_is_low_gl : Bool := false
deriving DecidableEq

/-- The state a freshly constructed GlExtra starts from. -/
def glStateDefault : GlState := {}

/-- Environment of one `GlExtra::init` call: outcomes of the driver/Qt
calls the code makes, and the values the driver reports. -/
structure InitEnv where
  gladLoadOk : Bool
  ext_memory_object : Bool
  ext_semaphore : Bool
  gl_version_4_2 : Bool
  gles_version_3_0 : Bool
  currentCtx : Option Nat
  sharedCreateOk : Bool
  sharedMakeCurrentOk : Bool
  gladReloadOk : Bool
  num_tiling_types : Int
  tiling_types : List Int
  vendor : String

/-- Whether `as` occurs at the head of `bs`. -/
def listStarts : List Char → List Char → Bool
  | [], _ => true
  | _ :: _, [] => false
  | a :: as, b :: bs => a = b && listStarts as bs

/-- Whether `needle` occurs as a contiguous run inside `hay`
(std::string::find != npos). -/
def listHasSub (needle : List Char) : List Char → Bool
  | [] => listStarts needle []
  | l@(_ :: rest) => listStarts needle l || listHasSub needle rest

/-- `gl_verdor_name.find("AMD") != std::string::npos` (glExtra line 210). -/
def vendorHasAMD (env : InitEnv) : Bool :=
  listHasSub "AMD".toList env.vendor.toList

/-- The tiling values the code reads back: the driver's list truncated to
`min(num, 2)` entries (glExtra lines 179-186). -/
def texTilings (env : InitEnv) : List Int :=
  env.tiling_types.take (min env.num_tiling_types 2).toNat

/-- Whether GL_OPTIMAL_TILING_EXT appears in the read-back tiling list. -/
def supportOptimal (env : InitEnv) : Bool :=
  (texTilings env).contains GL_OPTIMAL_TILING_EXT

/-- Whether GL_LINEAR_TILING_EXT appears in the read-back tiling list. -/
def supportLinear (env : InitEnv) : Bool :=
  (texTilings env).contains GL_LINEAR_TILING_EXT

/-- Outcome of the shared-context attempt (glExtra lines 114-163): the
shared-context fields, the resulting `is_low_gl`, and the context current
afterwards. -/
structure SharedCtxOutcome where
  m_shared_ctx : Option Nat
  m_shared_ctx_share : Option Nat
  m_surface : Option Nat
  m_use_shared_ctx : Bool
  is_low_gl : Bool
  cur : Option Nat

/-- Outcome when the shared-context path is not entered or fails: the
GlExtra fields are unchanged. -/
def noAttempt (s : GlState) (low : Bool) (cur : Option Nat) : SharedCtxOutcome :=
  { m_shared_ctx := s.m_shared_ctx
    m_shared_ctx_share := s.m_shared_ctx_share
    m_surface := s.m_surface
    m_use_shared_ctx := s.m_use_shared_ctx
    is_low_gl := low
    cur := cur }

/-- The shared GL 4.2 context attempt, entered when `is_low_gl` (glExtra
lines 114-163).  With no current context nothing is attempted.  Otherwise
a shared context (identity `c+1`) and offscreen surface (`c+2`) are
created; on `makeCurrent` plus GLAD-reload success they are kept,
`is_low_gl` becomes false, and the original context is made current again
(line 149).  On any failure the temporaries are deleted and the fields stay
unchanged. -/
def sharedCtxAttempt (s : GlState) (env : InitEnv) : SharedCtxOutcome :=
  match env.currentCtx with
  | none => noAttempt s true none
  | some c =>
    if env.sharedCreateOk then
      if env.sharedMakeCurrentOk then
        if env.gladReloadOk then
          { m_shared_ctx := some (c + 1)
            m_shared_ctx_share := some c
            m_surface := some (c + 2)
            m_use_shared_ctx := true
            is_low_gl := false
            cur := some c }
        else noAttempt s true (some c)
      else noAttempt s true (some c)
    else noAttempt s true (some c)

/-- Tiling negotiation (glExtra lines 171-212), run when not low-GL:
`none` when the driver reports no tiling count or neither supported mode
(the `break` paths), otherwise the selected mode — Optimal when supported,
else Linear, with the AMD vendor override forcing Linear. -/
def negotiate (env : InitEnv) (t0 : wallpaper.TexTiling) : Option wallpaper.TexTiling :=
  if env.num_tiling_types ≤ 0 then none
  else
    let so := supportOptimal env
    let sl := supportLinear env
    if !so && !sl then none
    else
      let t1 := if so then wallpaper.TexTiling.OPTIMAL
                else if sl then wallpaper.TexTiling.LINEAR
                else t0
      some (if sl && vendorHasAMD env then wallpaper.TexTiling.LINEAR else t1)

/-- The tail of the init body after the shared-context attempt (glExtra
lines 165-220): record `m_is_low_gl` and the shared-context fields, then —
unless low-GL — run tiling negotiation, `break`ing (state left with
`inited = false`) when it fails; on success record the tiling and set
`inited`. -/
def negotiatePhase (s : GlState) (env : InitEnv) (o : SharedCtxOutcome) :
    GlState × Option Nat :=
  let s2 : GlState :=
    { s with
      m_shared_ctx := o.m_shared_ctx
      m_shared_ctx_share := o.m_shared_ctx_share
      m_surface := o.m_surface
      m_use_shared_ctx := o.m_use_shared_ctx
      m_is_low_gl := o.is_low_gl }
  if !o.is_low_gl then
    match negotiate env s2.m_tiling with
    | none => (s2, o.cur)
    | some t => ({ s2 with m_tiling := t, inited := true }, o.cur)
  else ({ s2 with inited := true }, o.cur)

/-- The `do ... while(false)` body of `GlExtra::init` (glExtra lines
102-221): the state after the body and the context current when the body
exits (each `break` jumps here). -/
def initBody (s : GlState) (env : InitEnv) : GlState × Option Nat :=
  if s.inited then (s, env.currentCtx)
  else if !env.gladLoadOk then (s, env.currentCtx)
  else if !(env.ext_memory_object && env.ext_semaphore) then (s, env.currentCtx)
  else
    negotiatePhase s env
      (if !env.gl_version_4_2 && !env.gles_version_3_0 then sharedCtxAttempt s env
       else noAttempt s (!env.gl_version_4_2 && !env.gles_version_3_0) env.currentCtx)

/-- Result of `GlExtra::init`: the updated state, the returned boolean, and
the context current when the call returns. -/
structure InitResult where
  state : GlState
  ret : Bool
  cur : Option Nat

/-- `GlExtra::init` (glExtra lines 101-234): the do-while body followed by
the final restore block (lines 224-231), which, when a shared context is in
use and still current, makes its share context current again. -/
def init (s : GlState) (env : InitEnv) : InitResult :=
  let sF := (initBody s env).1
  let curF := (initBody s env).2
  let curR :=
    if sF.m_use_shared_ctx then
      if curF = sF.m_shared_ctx then
        match sF.m_shared_ctx_share with
        | some sh => some sh
        | none => curF
      else curF
    else curF
  ⟨sF, sF.inited, curR⟩

/-- Environment of one `GlExtra::genExTexture` call: the names the driver
hands out and whether the driver raises a GL error following the
memory-object importing step. -/
structure GenEnv where
  memObjectId : Nat
  texId : Nat
  importError : Bool

/-- One GL driver call issued by `genExTexture`.  `getError` records the
error value the driver reports to that `glGetError` read. -/
inductive GlCall
  | createMemoryObjects (n : Nat)
  | importMemoryFd (mem : Nat) (size : Nat) (fd : Int)
  | getError (hadError : Bool)
  | genTextures (n : Nat)
  | bindTexture (tex : Nat)
  | texParameteriTiling (v : Int)
  | texStorageMem2D (w h : Int) (mem : Nat)
  | deleteMemoryObjects (n : Nat)
  | deleteTextures (n : Nat)
deriving DecidableEq

/-- Whether a GL call releases a driver object. -/
def isDeleteCall : GlCall → Bool
  | GlCall.deleteMemoryObjects _ => true
  | GlCall.deleteTextures _ => true
  | _ => false

/-- Result of `GlExtra::genExTexture`: the returned texture name (0 on
failure), the handle as left by the call, the context current when the
call returns, and the GL calls issued. -/
structure GenExResult where
  ret : Nat
  handle : wallpaper.ExHandle
  cur : Option Nat
  calls : List GlCall

/-- `GlExtra::genExTexture` (glExtra lines 240-290).  An invalid handle
(fd < 0 or size 0) returns 0 with no GL call.  Otherwise: switch to the
shared context when one is in use (recording the previous context and its
surface), create a memory object, import the descriptor, read the error
(cleared silently when low-GL, logged otherwise), generate and bind a
texture, set the tiling parameter unless low-GL, bind the texture storage
to the memory object, unbind, invalidate the handle's fd, and restore the
previous context when one was recorded. -/
def genExTexture (s : GlState) (cur : Option Nat) (env : GenEnv)
    (handle : wallpaper.ExHandle) : GenExResult :=
  if handle.fd < 0 ∨ handle.size = 0 then
    ⟨0, handle, cur, []⟩
  else
    let switching := s.m_use_shared_ctx && s.m_shared_ctx.isSome
    let prev_ctx := if switching then cur else none
    let cur1 := if switching then s.m_shared_ctx else cur
    let memobject := env.memObjectId
    let tex := env.texId
    let calls1 : List GlCall :=
      [GlCall.createMemoryObjects 1,
       GlCall.importMemoryFd memobject handle.size handle.fd,
       GlCall.getError env.importError,
       GlCall.genTextures 1,
       GlCall.bindTexture tex]
    let calls2 :=
      if !s.m_is_low_gl then
        calls1 ++
          [GlCall.texParameteriTiling
            (if s.m_tiling = wallpaper.TexTiling.OPTIMAL then GL_OPTIMAL_TILING_EXT
             else GL_LINEAR_TILING_EXT),
           GlCall.getError false]
      else calls1
    let calls3 := calls2 ++
      [GlCall.texStorageMem2D handle.width handle.height memobject,
       GlCall.getError false,
       GlCall.bindTexture 0]
    let cur2 := if prev_ctx.isSome then prev_ctx else cur1
    ⟨tex, { handle with fd := -1 }, cur2, calls3⟩



/-! ## Theorems about genExTexture -/

/-- **C2.** For every ExHandle whose descriptor is invalid (fd < 0) or whose
byte size is 0, `genExTexture` performs no driver/GPU call and fails by
returning the 0 texture id, leaving the handle and the current context
untouched. -/
theorem genExTexture_invalid_handle_no_gl_calls (s : GlState) (cur : Option Nat)
    (env : GenEnv) (h : wallpaper.ExHandle) (hinv : h.fd < 0 ∨ h.size = 0) :
    genExTexture s cur env h = ⟨0, h, cur, []⟩ := by
  unfold genExTexture
  rw [if_pos hinv]

/-- Witness for C2 on a concrete invalid handle. -/
theorem genExTexture_invalid_handle_no_gl_calls_witness :
    genExTexture glStateDefault none ⟨1, 1, false⟩ { fd := -3, size := 0 } =
      ⟨0, { fd := -3, size := 0 }, none, []⟩ :=
  genExTexture_invalid_handle_no_gl_calls _ _ _ _ (by decide)

/-- **C3.** Whenever `genExTexture` succeeds (returns a nonzero texture
name), the handle's descriptor equals the invalid sentinel (-1) when the
call returns, so the same descriptor can never be imported twice. -/
theorem genExTexture_success_invalidates_fd (s : GlState) (cur : Option Nat)
    (env : GenEnv) (h : wallpaper.ExHandle)
    (hs : (genExTexture s cur env h).ret ≠ 0) :
    (genExTexture s cur env h).handle.fd = -1 := by
  unfold genExTexture at *
  by_cases hg : h.fd < 0 ∨ h.size = 0
  · rw [if_pos hg] at hs
    exact absurd rfl hs
  · rw [if_neg hg]

/-- Witness for C3 on a concrete valid handle. -/
theorem genExTexture_success_invalidates_fd_witness :
    (genExTexture glStateDefault none ⟨1, 7, false⟩
        { fd := 5, width := 64, height := 64, size := 1024 }).handle.fd = -1 :=
  genExTexture_success_invalidates_fd _ _ _ _ (by decide)

/-- Concrete handle for the C8 scenario: a valid descriptor and size. -/
def hC8 : wallpaper.ExHandle := { fd := 5, width := 64, height := 64, size := 1024 }

/-- Driver environment for the C8 scenario: the driver raises a GL error
after the memory import. -/
def envC8 : GenEnv := { memObjectId := 1, texId := 7, importError := true }

/-- **C8.** The code has no partial-failure cleanup: on a valid handle
whose import the driver rejects (a GL error is raised after
`glImportMemoryFdEXT`), `genExTexture` still returns the generated texture
name instead of reporting failure, and issues no
`glDeleteMemoryObjectsEXT`/`glDeleteTextures` call, leaving the partially
created driver objects alive — contrary to the specified cleanup-and-fail
behaviour. -/
theorem genExTexture_no_release_on_driver_error :
    (genExTexture glStateDefault none envC8 hC8).calls.contains (GlCall.getError true) = true ∧
    (genExTexture glStateDefault none envC8 hC8).ret = 7 ∧
    (genExTexture glStateDefault none envC8 hC8).calls.filter isDeleteCall = [] := by
  decide

/-- GlExtra state after a successful shared-context init, used to exhibit
the unrestored-context path of C7. -/
def sC7 : GlState :=
  { glStateDefault with
    m_use_shared_ctx := true
    m_shared_ctx := some 7
    m_shared_ctx_share := some 3
    m_surface := some 8 }

/-- Concrete valid handle for the C7 counterexample. -/
def hC7 : wallpaper.ExHandle := { fd := 4, width := 2, height := 2, size := 16 }

/-- **C7 counterexample.** When a shared context is in use but no context
is current at entry (`none`), `genExTexture` switches to the shared context
and never switches back: the context current after the call (`some 7`, the
shared context) differs from the one current before the call (`none`), so
the originally-current context is not restored on every path. -/
theorem genExTexture_null_ctx_not_restored :
    (genExTexture sC7 none ⟨1, 5, false⟩ hC7).cur = some 7 ∧
    (some 7 : Option Nat) ≠ none := by
  decide

/-! ## Lemmas about init -/

lemma noAttempt_cur (s : GlState) (low : Bool) (cur : Option Nat) :
    (noAttempt s low cur).cur = cur := rfl

lemma sharedCtxAttempt_cur (s : GlState) (env : InitEnv) :
    (sharedCtxAttempt s env).cur = env.currentCtx := by
  unfold sharedCtxAttempt
  cases env.currentCtx with
  | none => rfl
  | some c => split_ifs <;> rfl

lemma negotiatePhase_cur (s : GlState) (env : InitEnv) (o : SharedCtxOutcome) :
    (negotiatePhase s env o).2 = o.cur := by
  unfold negotiatePhase
  dsimp only
  split
  · split <;> rfl
  · rfl

lemma negotiatePhase_use_shared (s : GlState) (env : InitEnv) (o : SharedCtxOutcome) :
    (negotiatePhase s env o).1.m_use_shared_ctx = o.m_use_shared_ctx := by
  unfold negotiatePhase
  dsimp only
  split
  · split <;> rfl
  · rfl

lemma negotiatePhase_shared_ctx (s : GlState) (env : InitEnv) (o : SharedCtxOutcome) :
    (negotiatePhase s env o).1.m_shared_ctx = o.m_shared_ctx := by
  unfold negotiatePhase
  dsimp only
  split
  · split <;> rfl
  · rfl

lemma negotiatePhase_low_gl (s : GlState) (env : InitEnv) (o : SharedCtxOutcome) :
    (negotiatePhase s env o).1.m_is_low_gl = o.is_low_gl := by
  unfold negotiatePhase
  dsimp only
  split
  · split <;> rfl
  · rfl

lemma initBody_cur (s : GlState) (env : InitEnv) :
    (initBody s env).2 = env.currentCtx := by
  unfold initBody
  split
  · rfl
  split
  · rfl
  split
  · rfl
  rw [negotiatePhase_cur]
  split
  · exact sharedCtxAttempt_cur s env
  · rfl

lemma negotiate_some_eq (env : InitEnv) (t0 t : wallpaper.TexTiling)
    (h : negotiate env t0 = some t) :
    t = (if supportLinear env && vendorHasAMD env then wallpaper.TexTiling.LINEAR
         else if supportOptimal env then wallpaper.TexTiling.OPTIMAL
         else wallpaper.TexTiling.LINEAR) := by
  unfold negotiate at h
  by_cases hnum : env.num_tiling_types ≤ 0
  · rw [if_pos hnum] at h
    exact absurd h (by simp)
  · rw [if_neg hnum] at h
    dsimp only at h
    by_cases hn : !supportOptimal env && !supportLinear env
    · rw [if_pos hn] at h
      exact absurd h (by simp)
    · rw [if_neg hn] at h
      simp only [Bool.and_eq_true, Bool.not_eq_true'] at hn
      cases hso : supportOptimal env <;> cases hsl : supportLinear env <;>
        cases hamd : vendorHasAMD env <;>
        simp [hso, hsl, hamd, Option.some.injEq] at h ⊢ <;>
        first
          | exact h.symm
          | (exact absurd ⟨hso, hsl⟩ (by simp [hso, hsl] at hn ⊢))
          | simp_all

lemma negotiate_none_of_unsupported (env : InitEnv) (t0 : wallpaper.TexTiling)
    (hso : supportOptimal env = false) (hsl : supportLinear env = false) :
    negotiate env t0 = none := by
  unfold negotiate
  split
  · rfl
  · dsimp only
    rw [hso, hsl]
    rfl

lemma sharedCtxAttempt_fallback (s : GlState) (env : InitEnv)
    (hfail : env.currentCtx = none ∨ env.sharedCreateOk = false ∨
      env.sharedMakeCurrentOk = false ∨ env.gladReloadOk = false) :
    sharedCtxAttempt s env = noAttempt s true env.currentCtx := by
  unfold sharedCtxAttempt
  cases hc : env.currentCtx with
  | none => rfl
  | some c =>
    rw [hc] at hfail
    rcases hfail with h | h | h | h
    · exact absurd h (by simp)
    · simp [h]
    · simp [h]
    · simp [h]

lemma sharedCtxAttempt_success (s : GlState) (env : InitEnv)
    (hs : s.m_use_shared_ctx = false)
    (hu : (sharedCtxAttempt s env).m_use_shared_ctx = true) :
    ∃ c, env.currentCtx = some c ∧
      sharedCtxAttempt s env =
        { m_shared_ctx := some (c + 1), m_shared_ctx_share := some c,
          m_surface := some (c + 2), m_use_shared_ctx := true,
          is_low_gl := false, cur := some c } := by
  unfold sharedCtxAttempt at hu ⊢
  cases hc : env.currentCtx with
  | none =>
    rw [hc] at hu
    simp [noAttempt, hs] at hu
  | some c =>
    rw [hc] at hu
    dsimp only at hu ⊢
    split_ifs at hu ⊢ with h1 h2 h3
    · exact ⟨c, rfl, rfl⟩
    all_goals simp [noAttempt, hs] at hu

lemma initBody_break (s : GlState) (env : InitEnv) (hs : s.inited = false)
    (hbreak : env.gladLoadOk = false ∨
      (env.ext_memory_object && env.ext_semaphore) = false) :
    (initBody s env).1 = s := by
  unfold initBody
  rcases hbreak with h | h <;> simp [hs, h]

lemma initBody_main (s : GlState) (env : InitEnv) (hs : s.inited = false)
    (hglad : env.gladLoadOk = true)
    (hext : (env.ext_memory_object && env.ext_semaphore) = true) :
    initBody s env = negotiatePhase s env
      (if !env.gl_version_4_2 && !env.gles_version_3_0 then sharedCtxAttempt s env
       else noAttempt s (!env.gl_version_4_2 && !env.gles_version_3_0)
         env.currentCtx) := by
  unfold initBody
  simp [hs, hglad, hext]

lemma negotiatePhase_inited_some (s : GlState) (env : InitEnv) (o : SharedCtxOutcome)
    (hs : s.inited = false) (hlow : o.is_low_gl = false)
    (hret : (negotiatePhase s env o).1.inited = true) :
    ∃ t, negotiate env s.m_tiling = some t ∧
      (negotiatePhase s env o).1.m_tiling = t := by
  unfold negotiatePhase at hret ⊢
  dsimp only at hret ⊢
  rw [hlow] at hret ⊢
  cases ho : negotiate env s.m_tiling with
  | none =>
    rw [ho] at hret
    simp [hs] at hret
  | some t =>
    rw [ho] at hret
    exact ⟨t, rfl, by simp⟩

lemma negotiatePhase_not_inited (s : GlState) (env : InitEnv) (o : SharedCtxOutcome)
    (hs : s.inited = false) (hlow : o.is_low_gl = false)
    (hneg : negotiate env s.m_tiling = none) :
    (negotiatePhase s env o).1.inited = false := by
  unfold negotiatePhase
  dsimp only
  rw [hlow, hneg]
  simpa using hs

lemma negotiatePhase_lowgl (s : GlState) (env : InitEnv) (o : SharedCtxOutcome)
    (hlow : o.is_low_gl = true) :
    (negotiatePhase s env o).1.inited = true ∧
      (negotiatePhase s env o).1.m_tiling = s.m_tiling := by
  unfold negotiatePhase
  dsimp only
  rw [hlow]
  exact ⟨rfl, rfl⟩

lemma initBody_shared_success (env : InitEnv)
    (hu : (initBody glStateDefault env).1.m_use_shared_ctx = true) :
    ∃ c, env.currentCtx = some c ∧
      (initBody glStateDefault env).1.m_shared_ctx = some (c + 1) := by
  by_cases h2 : env.gladLoadOk = true
  case neg =>
    rw [initBody_break glStateDefault env rfl
      (Or.inl (Bool.not_eq_true _ ▸ h2))] at hu
    exact absurd hu (by simp [glStateDefault])
  by_cases h3 : (env.ext_memory_object && env.ext_semaphore) = true
  case neg =>
    rw [initBody_break glStateDefault env rfl
      (Or.inr (Bool.not_eq_true _ ▸ h3))] at hu
    exact absurd hu (by simp [glStateDefault])
  rw [initBody_main glStateDefault env rfl h2 h3] at hu ⊢
  rw [negotiatePhase_use_shared] at hu
  rw [negotiatePhase_shared_ctx]
  by_cases hlow : (!env.gl_version_4_2 && !env.gles_version_3_0) = true
  case neg =>
    rw [if_neg hlow] at hu
    exact absurd hu (by simp [noAttempt, glStateDefault])
  rw [if_pos hlow] at hu ⊢
  obtain ⟨c, hc, heq⟩ := sharedCtxAttempt_success glStateDefault env rfl hu
  exact ⟨c, hc, by rw [heq]⟩

/-! ## Theorems about init -/

/-- **C4.** When init succeeds and is not in low-capability mode, the
negotiated tiling is Optimal if the driver reports Optimal as supported and
otherwise Linear — except that when Linear is supported and the vendor
string contains "AMD", Linear is selected regardless of whether Optimal is
also supported. -/
theorem init_tiling_selection (env : InitEnv)
    (hret : (init glStateDefault env).ret = true)
    (hlow : (init glStateDefault env).state.m_is_low_gl = false) :
    (init glStateDefault env).state.m_tiling =
      (if supportLinear env && vendorHasAMD env then wallpaper.TexTiling.LINEAR
       else if supportOptimal env then wallpaper.TexTiling.OPTIMAL
       else wallpaper.TexTiling.LINEAR) := by
  unfold init at hret hlow ⊢
  dsimp only at hret hlow ⊢
  by_cases h2 : env.gladLoadOk = true
  case neg =>
    rw [initBody_break glStateDefault env rfl
      (Or.inl (Bool.not_eq_true _ ▸ h2))] at hret
    exact absurd hret (by simp [glStateDefault])
  by_cases h3 : (env.ext_memory_object && env.ext_semaphore) = true
  case neg =>
    rw [initBody_break glStateDefault env rfl
      (Or.inr (Bool.not_eq_true _ ▸ h3))] at hret
    exact absurd hret (by simp [glStateDefault])
  rw [initBody_main glStateDefault env rfl h2 h3] at hret hlow ⊢
  rw [negotiatePhase_low_gl] at hlow
  obtain ⟨t, hneg, htil⟩ :=
    negotiatePhase_inited_some glStateDefault env _ rfl hlow hret
  rw [htil]
  exact negotiate_some_eq env _ t hneg

/-- Scenario for the C4 witness: an AMD driver supporting both tilings. -/
def envC4w : InitEnv :=
  { gladLoadOk := true
    ext_memory_object := true
    ext_semaphore := true
    gl_version_4_2 := true
    gles_version_3_0 := false
    currentCtx := some 1
    sharedCreateOk := true
    sharedMakeCurrentOk := true
    gladReloadOk := true
    num_tiling_types := 2
    tiling_types := [GL_OPTIMAL_TILING_EXT, GL_LINEAR_TILING_EXT]
    vendor := "AMD Radeon" }

/-- Witness for C4: the AMD override forces Linear although Optimal is
supported. -/
theorem init_tiling_selection_witness :
    (init glStateDefault envC4w).state.m_tiling = wallpaper.TexTiling.LINEAR := by
  have h := init_tiling_selection envC4w (by decide) (by decide)
  rw [h]
  decide

/-- **C5.** `init` returns false whenever the driver does not expose both
the external-memory-object and external-semaphore extensions, and whenever,
not being in low-capability mode, the driver reports no supported tiling
layout (neither Optimal nor Linear). -/
theorem init_fails_missing_ext_or_no_tiling :
    (∀ env : InitEnv, (env.ext_memory_object && env.ext_semaphore) = false →
      (init glStateDefault env).ret = false) ∧
    (∀ env : InitEnv, (init glStateDefault env).state.m_is_low_gl = false →
      supportOptimal env = false → supportLinear env = false →
      (init glStateDefault env).ret = false) := by
  constructor
  · intro env hext
    unfold init
    dsimp only
    by_cases h2 : env.gladLoadOk = true
    case neg =>
      rw [initBody_break glStateDefault env rfl
        (Or.inl (Bool.not_eq_true _ ▸ h2))]
      rfl
    rw [initBody_break glStateDefault env rfl (Or.inr hext)]
    rfl
  · intro env hlow hso hsl
    unfold init at hlow ⊢
    dsimp only at hlow ⊢
    by_cases h2 : env.gladLoadOk = true
    case neg =>
      rw [initBody_break glStateDefault env rfl
        (Or.inl (Bool.not_eq_true _ ▸ h2))]
      rfl
    by_cases h3 : (env.ext_memory_object && env.ext_semaphore) = true
    case neg =>
      rw [initBody_break glStateDefault env rfl
        (Or.inr (Bool.not_eq_true _ ▸ h3))]
      rfl
    rw [initBody_main glStateDefault env rfl h2 h3] at hlow ⊢
    rw [negotiatePhase_low_gl] at hlow
    exact negotiatePhase_not_inited glStateDefault env _ rfl hlow
      (negotiate_none_of_unsupported env _ hso hsl)

/-- Scenario for the C5 witness: a driver reporting no tiling support. -/
def envC5w : InitEnv :=
  { envC4w with num_tiling_types := 0, tiling_types := [], vendor := "X" }

/-- Witness for C5: with no supported tiling layout init fails. -/
theorem init_fails_missing_ext_or_no_tiling_witness :
    (init glStateDefault { envC5w with ext_semaphore := false }).ret = false ∧
    (init glStateDefault envC5w).ret = false :=
  ⟨init_fails_missing_ext_or_no_tiling.1 _ (by decide),
   init_fails_missing_ext_or_no_tiling.2 envC5w (by decide) (by decide) (by decide)⟩

/-- **C6.** If the local context is below the minimum feature level
(neither GL 4.2 nor GLES 3.0) and the shared-context fallback cannot be
established (no current context, shared-context creation fails, makeCurrent
fails, or the GLAD reload fails), init falls back to low-capability mode:
`m_is_low_gl` is true, no shared context is used, tiling negotiation is
skipped (the tiling is left at its default), and init still returns
true. -/
theorem init_low_capability_fallback (env : InitEnv)
    (hglad : env.gladLoadOk = true)
    (hext : env.ext_memory_object = true) (hsem : env.ext_semaphore = true)
    (h42 : env.gl_version_4_2 = false) (hes : env.gles_version_3_0 = false)
    (hfail : env.currentCtx = none ∨ env.sharedCreateOk = false ∨
      env.sharedMakeCurrentOk = false ∨ env.gladReloadOk = false) :
    (init glStateDefault env).ret = true ∧
    (init glStateDefault env).state.m_is_low_gl = true ∧
    (init glStateDefault env).state.m_use_shared_ctx = false ∧
    (init glStateDefault env).state.m_tiling = glStateDefault.m_tiling := by
  unfold init
  dsimp only
  rw [initBody_main glStateDefault env rfl hglad (by rw [hext, hsem]; rfl)]
  have hcond : (!env.gl_version_4_2 && !env.gles_version_3_0) = true := by
    rw [h42, hes]
    rfl
  rw [if_pos hcond, sharedCtxAttempt_fallback glStateDefault env hfail]
  have hlow : (noAttempt glStateDefault true env.currentCtx).is_low_gl = true := rfl
  obtain ⟨hin, htil⟩ := negotiatePhase_lowgl glStateDefault env _ hlow
  refine ⟨hin, ?_, ?_, htil⟩
  · rw [negotiatePhase_low_gl]
    exact hlow
  · rw [negotiatePhase_use_shared]
    rfl

/-- Scenario for the C6 witness: a GL 3.2-class context with no current
context to share from. -/
def envC6w : InitEnv :=
  { envC4w with gl_version_4_2 := false, currentCtx := none }

/-- Witness for C6: the fallback on a concrete environment. -/
theorem init_low_capability_fallback_witness :
    (init glStateDefault envC6w).ret = true ∧
    (init glStateDefault envC6w).state.m_is_low_gl = true ∧
    (init glStateDefault envC6w).state.m_use_shared_ctx = false ∧
    (init glStateDefault envC6w).state.m_tiling = glStateDefault.m_tiling :=
  init_low_capability_fallback envC6w rfl rfl rfl rfl rfl (Or.inl rfl)

/-- **C7 amended.** `init` (from a fresh GlExtra) restores the
originally-current context on every path, and `genExTexture` restores it
whenever a context was current at entry; when no context was current and
the shared-context path is taken, the shared context remains current (the
counterexample path). -/
theorem context_restored_amended :
    (∀ env : InitEnv, (init glStateDefault env).cur = env.currentCtx) ∧
    (∀ (s : GlState) (cur : Option Nat) (env : GenEnv) (h : wallpaper.ExHandle),
      cur ≠ none → (genExTexture s cur env h).cur = cur) := by
  constructor
  · intro env
    unfold init
    dsimp only
    by_cases hu : (initBody glStateDefault env).1.m_use_shared_ctx = true
    · obtain ⟨c, hc, hshared⟩ := initBody_shared_success env hu
      rw [if_pos hu, initBody_cur, hc, hshared]
      rw [if_neg (by simp)]
    · rw [if_neg hu, initBody_cur]
  · intro s cur env h hcur
    unfold genExTexture
    by_cases hg : h.fd < 0 ∨ h.size = 0
    · rw [if_pos hg]
    · rw [if_neg hg]
      dsimp only
      by_cases hsw : (s.m_use_shared_ctx && s.m_shared_ctx.isSome) = true
      · simp [hsw, Option.isSome_iff_ne_none.mpr hcur]
      · simp [Bool.not_eq_true _ ▸ hsw]

/-- Witness for C7 amended: a concrete init call and a concrete
genExTexture call with a context current at entry both restore it. -/
theorem context_restored_amended_witness :
    (init glStateDefault envC4w).cur = envC4w.currentCtx ∧
    (genExTexture sC7 (some 3) ⟨1, 5, false⟩ hC7).cur = some 3 :=
  ⟨context_restored_amended.1 envC4w,
   context_restored_amended.2 sC7 (some 3) ⟨1, 5, false⟩ hC7 (by decide)⟩

/-! ## WPUserProperties (src/src/WPUserProperties.hpp)

nlohmann::json values are modelled by an inductive `Json` (numbers as
integers; objects as association lists with unique keys).  The property
store `m_properties` is an association list.  `get<std::string>` on a
non-string throws, modelled by `Except`. -/

inductive Json
  | null
  | bool (b : Bool)
  | num (n : Int)
  | str (s : String)
  | arr (xs : List Json)
  | obj (kvs : List (String × Json))

/-- Key lookup in an object's entry list (nlohmann objects have unique
keys). -/
def lookupKey : List (String × Json) → String → Option Json
  | [], _ => none
  | (k, v) :: rest, key => if k = key then some v else lookupKey rest key

/-- json.is_object(). -/
def Json.is_object : Json → Bool
  | Json.obj _ => true
  | _ => false

/-- json.is_string(). -/
def Json.is_string : Json → Bool
  | Json.str _ => true
  | _ => false

/-- json.is_boolean(). -/
def Json.is_boolean : Json → Bool
  | Json.bool _ => true
  | _ => false

/-- The entry list of an object (empty for non-objects). -/
def objEntries : Json → List (String × Json)
  | Json.obj kvs => kvs
  | _ => []

/-- json.contains(key). -/
def jContains (j : Json) (k : String) : Bool :=
  (lookupKey (objEntries j) k).isSome

/-- json[key] on an object known to contain the key. -/
def jGet (j : Json) (k : String) : Json :=
  (lookupKey (objEntries j) k).getD Json.null

/-- value.get<std::string>(): the string, or a thrown type error. -/
def getString : Json → Except String String
  | Json.str s => Except.ok s
  | _ => Except.error "type_error"

/-- One JSON string character, escaped as nlohmann dump does. -/
def escChar (c : Char) : String :=
  if c = '"' then "\\\""
  else if c = '\\' then "\\\\"
  else if c = '\n' then "\\n"
  else if c = '\t' then "\\t"
  else if c = '\r' then "\\r"
  else String.singleton c

/-- JSON string-body escaping. -/
def escapeStr (s : String) : String :=
  String.join (s.toList.map escChar)

/-- value.dump(): compact JSON serialization. -/
def dump : Json → String
  | Json.null => "null"
  | Json.bool true => "true"
  | Json.bool false => "false"
  | Json.num n => toString n
  | Json.str s => "\"" ++ escapeStr s ++ "\""
  | Json.arr xs =>
      "[" ++ String.intercalate "," (xs.attach.map (fun x => dump x.1)) ++ "]"
  | Json.obj kvs =>
      "\x7b" ++ String.intercalate ","
        (kvs.attach.map (fun kv => "\"" ++ escapeStr kv.1.1 ++ "\":" ++ dump kv.1.2)) ++
        "\x7d"
decreasing_by
  · simp_wf
    have := List.sizeOf_lt_of_mem x.2
    omega
  · simp_wf
    obtain ⟨⟨a, b⟩, hmem⟩ := kv
    have := List.sizeOf_lt_of_mem hmem
    simp at this ⊢
    omega

/-- WPUserProperties::GetProperty: the stored property value, if any. -/
def GetProperty (props : List (String × Json)) (name : String) : Option Json :=
  lookupKey props name

/-- The string the code compares against the condition: the property value
itself when it is a string, its dump otherwise (WPUserProperties lines
100-102). -/
def propStrOf : Json → String
  | Json.str s => s
  | v => dump v

/-- The tail of ResolveValue once propName and condition are known
(WPUserProperties lines 87-112): missing property falls back to the
declared default (or the input); a non-empty condition with a boolean
declared default yields whether the property's stringified value equals
the condition; otherwise the property value is returned. -/
def resolveWithProp (props : List (String × Json)) (json : Json)
    (propName condition : String) : Json :=
  match GetProperty props propName with
  | none => if jContains json "value" then jGet json "value" else json
  | some propValue =>
    if condition ≠ "" then
      if jContains json "value" && (jGet json "value").is_boolean then
        Json.bool (decide (propStrOf propValue = condition))
      else propValue
    else propValue

/-- WPUserProperties::ResolveValue (lines 57-113).  Non-objects and objects
without a "user" key are returned unchanged.  A string "user" field is a
plain property reference; an object "user" field with a "name" key is a
conditional reference (reading a non-string "name"/"condition" throws);
anything else returns the declared default or the input. -/
def ResolveValue (props : List (String × Json)) (json : Json) :
    Except String Json :=
  if !json.is_object then Except.ok json
  else if !jContains json "user" then Except.ok json
  else
    match jGet json "user" with
    | Json.str s => Except.ok (resolveWithProp props json s "")
    | userField =>
      if userField.is_object && jContains userField "name" then
        match getString (jGet userField "name") with
        | Except.error e => Except.error e
        | Except.ok propName =>
          match
            (if jContains userField "condition" then
              getString (jGet userField "condition")
            else Except.ok "") with
          | Except.error e => Except.error e
          | Except.ok condition =>
            Except.ok (resolveWithProp props json propName condition)
      else if jContains json "value" then Except.ok (jGet json "value")
      else Except.ok json

/-! ## Theorems about ResolveValue -/

/-- **C10.** For every JSON value that is not an object, and for every
object with no "user" key, ResolveValue returns the input unchanged. -/
theorem resolveValue_identity_no_user (props : List (String × Json)) (j : Json)
    (h : j.is_object = false ∨ lookupKey (objEntries j) "user" = none) :
    ResolveValue props j = Except.ok j := by
  unfold ResolveValue
  rcases h with h | h
  · rw [h]
    rfl
  · have hc : jContains j "user" = false := by
      unfold jContains
      rw [h]
      rfl
    rw [hc]
    split <;> rfl

/-- Witness for C10: a non-object value and an object without "user" are
both returned unchanged. -/
theorem resolveValue_identity_no_user_witness :
    ResolveValue [] (Json.num 5) = Except.ok (Json.num 5) ∧
    ResolveValue [] (Json.obj [("value", Json.num 9)]) =
      Except.ok (Json.obj [("value", Json.num 9)]) :=
  ⟨resolveValue_identity_no_user [] (Json.num 5) (Or.inl rfl),
   resolveValue_identity_no_user [] (Json.obj [("value", Json.num 9)]) (Or.inr rfl)⟩

/-- Property store for the C9 counterexample: property "p" currently "x". -/
def propsC9 : List (String × Json) := [("p", Json.str "x")]

/-- Conditional-reference value whose declared default is a number, not a
boolean. -/
def jsonC9 : Json :=
  Json.obj [("user", Json.obj [("condition", Json.str "x"), ("name", Json.str "p")]),
            ("value", Json.num 3)]

/-- **C9 counterexample.** On a conditional reference `{condition
= "x", name = "p"}` with property p = "x" and declared default 3 (not a
boolean), ResolveValue returns the property's value "x", not the boolean
`true` that "returns whether the named property's current value equals the
condition string" requires. -/
theorem resolveValue_conditional_nonbool_cex :
    ResolveValue propsC9 jsonC9 = Except.ok (Json.str "x") ∧
    Except.ok (Json.str "x") ≠ (Except.ok (Json.bool true) : Except String Json) :=
  ⟨rfl, fun hcontra => Json.noConfusion (Except.ok.inj hcontra)⟩

/-- **C9 amended.** Plain reference: the named property's value when it
exists, else the declared default when one is present.  Conditional
reference {condition, name} with a non-empty condition: when the property
exists and the declared default is a boolean, whether the property's
(stringified) value equals the condition; when the property exists but the
default is missing or not a boolean, the property's value itself. -/
theorem resolveValue_characterization (props : List (String × Json))
    (kvs : List (String × Json)) :
    (∀ pname v, lookupKey kvs "user" = some (Json.str pname) →
      GetProperty props pname = some v →
      ResolveValue props (Json.obj kvs) = Except.ok v) ∧
    (∀ pname d, lookupKey kvs "user" = some (Json.str pname) →
      GetProperty props pname = none →
      lookupKey kvs "value" = some d →
      ResolveValue props (Json.obj kvs) = Except.ok d) ∧
    (∀ ukvs pname cond v b, lookupKey kvs "user" = some (Json.obj ukvs) →
      lookupKey ukvs "name" = some (Json.str pname) →
      lookupKey ukvs "condition" = some (Json.str cond) →
      cond ≠ "" →
      GetProperty props pname = some v →
      lookupKey kvs "value" = some (Json.bool b) →
      ResolveValue props (Json.obj kvs) =
        Except.ok (Json.bool (decide (propStrOf v = cond)))) ∧
    (∀ ukvs pname cond v, lookupKey kvs "user" = some (Json.obj ukvs) →
      lookupKey ukvs "name" = some (Json.str pname) →
      lookupKey ukvs "condition" = some (Json.str cond) →
      GetProperty props pname = some v →
      (jContains (Json.obj kvs) "value" &&
        (jGet (Json.obj kvs) "value").is_boolean) = false →
      ResolveValue props (Json.obj kvs) = Except.ok v) := by
  refine ⟨?_, ?_, ?_, ?_⟩
  · intro pname v h1 h2
    simp [ResolveValue, jContains, jGet, objEntries, h1, resolveWithProp, h2,
      Json.is_object]
  · intro pname d h1 h2 h3
    simp [ResolveValue, jContains, jGet, objEntries, h1, resolveWithProp, h2, h3,
      Json.is_object]
  · intro ukvs pname cond v b h1 h2 h3 h4 h5 h6
    simp [ResolveValue, jContains, jGet, objEntries, h1, h2, h3, resolveWithProp,
      h5, h6, h4, Json.is_boolean, getString, Json.is_object]
  · intro ukvs pname cond v h1 h2 h3 h5 h6
    by_cases hc : cond = ""
    · subst hc
      simp [ResolveValue, jContains, jGet, objEntries, h1, h2, h3, resolveWithProp,
        h5, getString, Json.is_object]
    · simp only [jContains, jGet, objEntries] at h6
      simp [ResolveValue, jContains, jGet, objEntries, h1, h2, h3, resolveWithProp,
        h5, hc, h6, getString, Json.is_object]

/-- Entries for the C9 witness: same conditional reference, boolean
default. -/
def kvsC9w : List (String × Json) :=
  [("user", Json.obj [("condition", Json.str "x"), ("name", Json.str "p")]),
   ("value", Json.bool false)]

/-- Witness for C9 amended: with a boolean default the conditional
reference resolves to whether the property matches the condition. -/
theorem resolveValue_characterization_witness :
    ResolveValue propsC9 (Json.obj kvsC9w) = Except.ok (Json.bool true) := by
  have h := (resolveValue_characterization propsC9 kvsC9w).2.2.1
    [("condition", Json.str "x"), ("name", Json.str "p")] "p" "x" (Json.str "x") false
    rfl rfl rfl (by decide) rfl rfl
  rw [h]
  rfl
